import Mathlib

/-!
Verification of the real-time ledger synchronization layer of the AstraX
wallet (optimistic-update ledger, subscription cache, endpoint selector,
fetch gate, account-creation wait loop, orderbook shortcuts).

The definitions below are a shallow embedding of the TypeScript sources:

* `src/Generic/lib/digitalbits-address.ts` (second document: the
  optimistic-update cache, `OptimisticUpdateCache`),
* `src/Workers/net-worker/optimistic-updates/index.ts`,
* `src/Workers/net-worker/optimistic-updates/set-options.ts`,
* `src/unnamed/part_007` (the `changeTrust` optimistic-update translator),
* `src/Workers/net-worker/digitalbits-network.ts`.

JavaScript `Map`s are embedded as association lists that keep insertion
order (a JS `Map` iterates in insertion order; `set` of an existing key
keeps its position, `set` of a new key appends at the end).  `undefined`
string fields are embedded as `Option String`.
-/

namespace Solar

/-! ## Definitions -/

/-- JS `Map.prototype.get`: first entry with the given key, if any. -/
def assocGet (k : String) : List (String × α) → Option α
  | [] => none
  | (k', v) :: rest => if k' = k then some v else assocGet k rest

/-- JS `Map.prototype.set`: replace in place if the key is present
    (keeping its position), else append at the end. -/
def assocSet (k : String) (v : α) : List (String × α) → List (String × α)
  | [] => [(k, v)]
  | (k', v') :: rest => if k' = k then (k, v) :: rest else (k', v') :: assocSet k v rest

/-- `OptimisticUpdate<T>` from `src/Generic/lib/digitalbits-address.ts`
    (second document, lines 52–58). -/
structure OptimisticUpdate (T : Type) where
  apply : T → T
  effectsAccountID : String
  frontierURL : String
  title : String
  transactionHash : String

/-- `createAccountCacheKeyByFilter` (the offer variant is the same function). -/
def createAccountCacheKeyByFilter (frontierURL accountID : String) : String :=
  frontierURL ++ "/accounts/" ++ accountID

/-- `createAccountCacheKey` applied to an update's own fields. -/
def createAccountCacheKey (update : OptimisticUpdate T) : String :=
  createAccountCacheKeyByFilter update.frontierURL update.effectsAccountID

/-- The mutable `updates` map of one `OptimisticUpdateCache` instance. -/
abbrev Ledger (T : Type) := List (String × List (OptimisticUpdate T))

/-- One step of `addUpdates`: append the update to its key's bucket
    (`updates.set(selector, [...prevUpdates, optimisticUpdate])`). -/
def addUpdate (u : OptimisticUpdate T) (st : Ledger T) : Ledger T :=
  let selector := createAccountCacheKey u
  assocSet selector ((assocGet selector st).getD [] ++ [u]) st

/-- `addUpdates(optimisticUpdates)`: iterate over the list, adding each. -/
def addUpdates (us : List (OptimisticUpdate T)) (st : Ledger T) : Ledger T :=
  us.foldl (fun st u => addUpdate u st) st

/-- `getUpdates(...filterArgs)`: the bucket of the derived key, or `[]`. -/
def getUpdates (frontierURL accountID : String) (st : Ledger T) :
    List (OptimisticUpdate T) :=
  (assocGet (createAccountCacheKeyByFilter frontierURL accountID) st).getD []

/-- The retirement predicate of `removeStaleUpdates`: an update is dropped
    iff its `frontierURL` matches and its `transactionHash` is among the
    latest confirmed hashes. -/
def isStale (frontierURL : String) (latestTransactionHashs : List String)
    (u : OptimisticUpdate T) : Bool :=
  u.frontierURL == frontierURL && latestTransactionHashs.contains u.transactionHash

/-- `removeStaleUpdates(frontierURL, latestTransactionHashs)`: filter every
    bucket, writing the bucket back only when its length changed. -/
def removeStaleUpdates (frontierURL : String) (latestTransactionHashs : List String)
    (st : Ledger T) : Ledger T :=
  st.map fun kv =>
    let next := kv.2.filter fun u => !isStale frontierURL latestTransactionHashs u
    if next.length ≠ kv.2.length then (kv.1, next) else kv

/-- `optimisticallyUpdateAccountData`-style fold (generic in the snapshot
    type): `getUpdates(...).reduce((d, u) => u.apply(d), accountData)`. -/
def applyUpdatesFold (us : List (OptimisticUpdate T)) (base : T) : T :=
  us.foldl (fun d u => u.apply d) base

/-! ### The account snapshot data model

Shallow embedding of the slice of `Frontier.AccountResponse` that the
optimistic-update translators read and write, together with the
`stellar-base` `Asset` value as far as `Asset.prototype.equals` is
concerned.  `undefined` is embedded as `none`. -/

/-- A `stellar-base` asset as far as `equals()` (code + issuer comparison)
    is concerned; the native asset carries code `"XLM"` and no issuer. -/
structure Asset where
  code : String
  issuer : Option String
deriving DecidableEq, Repr

/-- `Asset.native()`. -/
def Asset.native : Asset := ⟨"XLM", none⟩

/-- `Asset.prototype.equals`: compares code and issuer. -/
def Asset.equals (a b : Asset) : Bool :=
  a.code == b.code && a.issuer == b.issuer

/-- `parseAssetID` from `src/Generic/lib/digitalbits.ts` (`part_005`):
    `"XDB"` is the native asset, otherwise the string splits at `":"` into
    issuer and code (a missing component is `undefined`, embedded `""`). -/
def parseAssetID (assetID : String) : Asset :=
  if assetID == "XDB" then Asset.native
  else
    let parts := assetID.splitOn ":"
    ⟨parts.getD 1 "", some (parts.getD 0 "")⟩

/-- One entry of `AccountResponse.balances`: the union
    `BalanceLineNative | BalanceLineAsset | BalanceLineLiquidityPool`
    embedded as one record with optional fields (absent = `undefined`). -/
structure BalanceLine where
  asset_type : String
  asset_code : Option String := none
  asset_issuer : Option String := none
  liquidity_pool_id : Option String := none
  balance : String
  limit : Option String := none
  buying_liabilities : Option String := none
  selling_liabilities : Option String := none
  is_authorized : Bool := false
  is_authorized_to_maintain_liabilities : Bool := false
  is_clawback_enabled : Bool := false
  last_modified_ledger : Nat := 0
deriving DecidableEq, Repr

/-- `balancelineToAsset` from `src/Generic/lib/digitalbits.ts`
    (`part_005`, lines 312–316): native lines map to `Asset.native()`,
    anything else to `new Asset(asset_code, asset_issuer)`. -/
def balancelineToAsset (balanceline : BalanceLine) : Asset :=
  if balanceline.asset_type == "native" then Asset.native
  else ⟨balanceline.asset_code.getD "", balanceline.asset_issuer⟩

/-- One entry of `AccountResponse.signers`. -/
structure AccountSigner where
  type : String
  key : String
  weight : Int
deriving DecidableEq, Repr

/-- `AccountResponse.thresholds`. -/
structure AccountThresholds where
  low_threshold : Int
  med_threshold : Int
  high_threshold : Int
deriving DecidableEq, Repr

/-- The slice of `Frontier.AccountResponse` touched by the optimistic
    updates of this repository. -/
structure AccountResponse where
  account_id : String
  sequence : String
  balances : List BalanceLine
  signers : List AccountSigner
  thresholds : AccountThresholds
deriving DecidableEq, Repr

/-- `optimisticallyUpdateAccountData` from
    `src/Workers/net-worker/optimistic-updates/index.ts` lines 30–36:
    `getUpdates(frontierURL, accountData.account_id).reduce((d, u) => u.apply(d), accountData)`. -/
def optimisticallyUpdateAccountData (frontierURL : String)
    (accountData : AccountResponse) (st : Ledger AccountResponse) : AccountResponse :=
  applyUpdatesFold (getUpdates frontierURL accountData.account_id st) accountData

/-! ### The optimistic-update translators

Embeddings of `src/Workers/net-worker/optimistic-updates/set-options.ts`
and of the `changeTrust` translator (`src/unnamed/part_007`). -/

/-- The slice of a `Transaction` the translators read: `source` and
    `hash().toString("hex")`. -/
structure Tx where
  source : String
  hash : String
deriving DecidableEq, Repr

/-- JS `a || b` for an optional string (`undefined` and `""` are falsy),
    as in `operation.source || transaction.source`. -/
def jsOr (a : Option String) (b : String) : String :=
  match a with
  | some s => if s == "" then b else s
  | none => b

/-- The `signer` option of a `setOptions` operation: an ed25519 signer
    with an optional numeric weight, or a signer of another kind (which
    fails the `"ed25519PublicKey" in signer` test). -/
inductive SignerArg
  | ed25519 (ed25519PublicKey : String) (weight : Option Int)
  | otherKind
deriving DecidableEq, Repr

/-- `Operation.SetOptions`, restricted to the fields `setAccountOptions`
    reads. -/
structure SetOptionsOp where
  signer : Option SignerArg := none
  masterWeight : Option Int := none
  lowThreshold : Option Int := none
  medThreshold : Option Int := none
  highThreshold : Option Int := none
  source : Option String := none
deriving DecidableEq, Repr

/-- `addSigner` (set-options.ts lines 4–32): drop any signer with the same
    key, then append the new ed25519 entry with the requested weight. -/
def addSigner (frontierURL : String) (operation : SetOptionsOp)
    (key : String) (weight : Int) (transaction : Tx) :
    OptimisticUpdate AccountResponse :=
  { apply := fun prevAccountData =>
      let allOtherSigners := prevAccountData.signers.filter fun existing =>
        existing.key != key
      { prevAccountData with
          signers := allOtherSigners ++ [⟨"ed25519_public_key", key, weight⟩] },
    effectsAccountID := jsOr operation.source transaction.source,
    frontierURL := frontierURL,
    title := "Add signer " ++ key,
    transactionHash := transaction.hash }

/-- `removeSigner` (set-options.ts lines 34–54): keep every signer that is
    not the ed25519 entry with the given key. -/
def removeSigner (frontierURL : String) (operation : SetOptionsOp)
    (key : String) (transaction : Tx) : OptimisticUpdate AccountResponse :=
  { apply := fun prevAccountData =>
      { prevAccountData with
          signers := prevAccountData.signers.filter fun prevSigner =>
            !(prevSigner.type == "ed25519_public_key" && prevSigner.key == key) },
    effectsAccountID := jsOr operation.source transaction.source,
    frontierURL := frontierURL,
    title := "Remove signer " ++ key,
    transactionHash := transaction.hash }

/-- `setMasterWeight` (set-options.ts lines 56–84): map over the signers,
    rewriting the weight of the account's own ed25519 entry. -/
def setMasterWeight (frontierURL : String) (operation : SetOptionsOp)
    (masterWeight : Int) (transaction : Tx) : OptimisticUpdate AccountResponse :=
  let accountID := jsOr operation.source transaction.source
  { apply := fun prevAccountData =>
      { prevAccountData with
          signers := prevAccountData.signers.map fun signer =>
            if signer.type == "ed25519_public_key" && signer.key == accountID then
              { signer with weight := masterWeight }
            else signer },
    effectsAccountID := accountID,
    frontierURL := frontierURL,
    title := "Set master key weight",
    transactionHash := transaction.hash }

/-- The threshold overwrite of `setThresholds` (set-options.ts lines
    92–107): each present option replaces its field. -/
def applyThresholds (operation : SetOptionsOp) (t : AccountThresholds) :
    AccountThresholds :=
  let t1 := match operation.lowThreshold with
    | some v => { t with low_threshold := v }
    | none => t
  let t2 := match operation.medThreshold with
    | some v => { t1 with med_threshold := v }
    | none => t1
  match operation.highThreshold with
  | some v => { t2 with high_threshold := v }
  | none => t2

/-- `setThresholds` (set-options.ts lines 86–114). -/
def setThresholds (frontierURL : String) (operation : SetOptionsOp)
    (transaction : Tx) : OptimisticUpdate AccountResponse :=
  { apply := fun prevAccountData =>
      { prevAccountData with
          thresholds := applyThresholds operation prevAccountData.thresholds },
    effectsAccountID := jsOr operation.source transaction.source,
    frontierURL := frontierURL,
    title := "Set thresholds",
    transactionHash := transaction.hash }

/-- The third branch of the if/else-if chain of `setAccountOptions`
    (set-options.ts lines 128–134): a `setThresholds` update when any
    threshold option is present. -/
def thresholdUpdates (frontierURL : String) (operation : SetOptionsOp)
    (transaction : Tx) : List (OptimisticUpdate AccountResponse) :=
  if operation.lowThreshold.isSome || operation.medThreshold.isSome
      || operation.highThreshold.isSome then
    [setThresholds frontierURL operation transaction]
  else []

/-- The if/else-if chain of `setAccountOptions` (set-options.ts lines
    124–134): an ed25519 signer with a numeric positive weight yields
    `addSigner`, with weight zero `removeSigner`; otherwise the
    threshold branch is tried. -/
def signerUpdates (frontierURL : String) (operation : SetOptionsOp)
    (transaction : Tx) : List (OptimisticUpdate AccountResponse) :=
  match operation.signer with
  | some (.ed25519 key (some w)) =>
    if 0 < w then [addSigner frontierURL operation key w transaction]
    else if w = 0 then [removeSigner frontierURL operation key transaction]
    else thresholdUpdates frontierURL operation transaction
  | _ => thresholdUpdates frontierURL operation transaction

/-- `setAccountOptions` (set-options.ts lines 116–141): the if/else-if
    chain over the signer argument and thresholds, then the optional
    `setMasterWeight` update appended at the end. -/
def setAccountOptions (frontierURL : String) (operation : SetOptionsOp)
    (transaction : Tx) : List (OptimisticUpdate AccountResponse) :=
  match operation.masterWeight with
  | some mw => signerUpdates frontierURL operation transaction
      ++ [setMasterWeight frontierURL operation mw transaction]
  | none => signerUpdates frontierURL operation transaction

/-- `operation.line` of a `changeTrust` operation: a classic asset, or
    liquidity pool shares (embedded via the pool id that
    `getLiquidityPoolIdFromAsset` computes for them). -/
inductive TrustLineTarget
  | classic (asset : Asset)
  | liquidityPoolShares (poolId : String)
deriving DecidableEq, Repr

/-- `operation.line.getAssetType() === "liquidity_pool_shares"`. -/
def TrustLineTarget.isPool : TrustLineTarget → Bool
  | .liquidityPoolShares _ => true
  | .classic _ => false

/-- `getLiquidityPoolIdFromAsset(operation.line as LiquidityPoolAsset)`. -/
def TrustLineTarget.poolId : TrustLineTarget → String
  | .liquidityPoolShares pid => pid
  | .classic _ => ""

/-- `operation.line as Asset` (only read on the classic branch). -/
def TrustLineTarget.asset : TrustLineTarget → Asset
  | .classic a => a
  | .liquidityPoolShares _ => ⟨"", none⟩

/-- `Operation.ChangeTrust`, restricted to the fields the translator
    reads. -/
structure ChangeTrustOp where
  line : TrustLineTarget
  limit : String
  source : Option String := none
deriving DecidableEq, Repr

/-- `BigNumber(limit).eq(0)` for a well-formed decimal numeral: after an
    optional sign, the numeral denotes zero iff every remaining character
    is `'0'` or the decimal point. -/
def bigEqZero (s : String) : Bool :=
  let cs := s.toList
  let t := match cs with
    | c :: rest => if c == '-' || c == '+' then rest else cs
    | [] => cs
  t.all fun c => c == '0' || c == '.'

/-- The match test inside `addTrustline`'s `some(...)` callback
    (`part_007` lines 48–64). -/
def trustlineAlreadyPresent (line : TrustLineTarget) (balance : BalanceLine) : Bool :=
  if balance.asset_type == "liquidity_pool_shares" && line.isPool then
    balance.liquidity_pool_id == some line.poolId
  else if balance.asset_type != "liquidity_pool_shares" && !line.isPool then
    (balancelineToAsset balance).equals line.asset
  else
    false

/-- The keep test inside `removeTrustline`'s `filter(...)` callback
    (`part_007` lines 85–101).  Note that the final branch returns
    `false`, so entries whose pool-vs-classic category differs from the
    operation's line are dropped as well. -/
def removeTrustlineKeep (line : TrustLineTarget) (balance : BalanceLine) : Bool :=
  if balance.asset_type == "liquidity_pool_shares" && line.isPool then
    balance.liquidity_pool_id != some line.poolId
  else if balance.asset_type != "liquidity_pool_shares" && !line.isPool then
    !(balancelineToAsset balance).equals line.asset
  else
    false

/-- The `newBalance` record built by `addTrustline` (`part_007` lines
    21–45). -/
def newTrustlineBalance (line : TrustLineTarget) (limit : String) : BalanceLine :=
  match line with
  | .liquidityPoolShares pid =>
    { asset_type := "liquidity_pool_shares", balance := "0",
      is_authorized := false, is_authorized_to_maintain_liabilities := false,
      is_clawback_enabled := false, last_modified_ledger := 0,
      limit := some limit, liquidity_pool_id := some pid }
  | .classic a =>
    { asset_code := some a.code, asset_issuer := a.issuer,
      asset_type := "credit_alphanum12", balance := "0",
      buying_liabilities := some "0", is_authorized := false,
      is_authorized_to_maintain_liabilities := false, last_modified_ledger := 0,
      limit := some limit, selling_liabilities := some "0",
      is_clawback_enabled := false }

/-- `addTrustline` (`part_007` lines 14–74): append the new balance line
    unless some existing entry already matches the operation's line. -/
def addTrustline (frontierURL : String) (operation : ChangeTrustOp)
    (transaction : Tx) : OptimisticUpdate AccountResponse :=
  { apply := fun prevAccountData =>
      { prevAccountData with
          balances :=
            if prevAccountData.balances.any (trustlineAlreadyPresent operation.line) then
              prevAccountData.balances
            else
              prevAccountData.balances
                ++ [newTrustlineBalance operation.line operation.limit] },
    effectsAccountID := jsOr operation.source transaction.source,
    frontierURL := frontierURL,
    title := "Remove trustline",
    transactionHash := transaction.hash }

/-- `removeTrustline` (`part_007` lines 76–109). -/
def removeTrustline (frontierURL : String) (operation : ChangeTrustOp)
    (transaction : Tx) : OptimisticUpdate AccountResponse :=
  { apply := fun prevAccountData =>
      { prevAccountData with
          balances := prevAccountData.balances.filter
            (removeTrustlineKeep operation.line) },
    effectsAccountID := jsOr operation.source transaction.source,
    frontierURL := frontierURL,
    title := "Remove trustline",
    transactionHash := transaction.hash }

/-- `changeTrust` (`part_007` lines 111–121): zero limit means remove,
    any other limit means add. -/
def changeTrust (frontierURL : String) (operation : ChangeTrustOp)
    (transaction : Tx) : List (OptimisticUpdate AccountResponse) :=
  if bigEqZero operation.limit then [removeTrustline frontierURL operation transaction]
  else [addTrustline frontierURL operation transaction]

/-! ### Subscription cache (`cachify`, `resetAllSubscriptions`)

Embedding of `src/Workers/net-worker/digitalbits-network.ts` lines 71–75,
88–92, 127–144 and 178–187. -/

/-- `cachify` (digitalbits-network.ts lines 127–144) as one call on an
    explicit cache state: return the cached handle when the key is
    present, else store and return the freshly constructed one.  `fresh`
    stands for the stream handle `subscribe(...args)` would construct; it
    is used (the upstream stream constructed) only on a cache miss. -/
def cachify (cache : List (String × H)) (cacheKey : String) (fresh : H) :
    H × List (String × H) :=
  match assocGet cacheKey cache with
  | some cached => (cached, cache)
  | none => (fresh, assocSet cacheKey fresh cache)

/-- The five module-level subscription caches (lines 71–75). -/
structure SubscriptionCaches (H : Type) where
  accountSubscriptionCache : List (String × H)
  effectsSubscriptionCache : List (String × H)
  orderbookSubscriptionCache : List (String × H)
  ordersSubscriptionCache : List (String × H)
  transactionsSubscriptionCache : List (String × H)

/-- `createAccountCacheKey` (line 88): the JS template string converts
    the URL array with `Array.prototype.toString`, i.e. a comma join of
    `url + ":"`, followed by the account id. -/
def createAccountCacheKeyNet (frontierURLs : List String) (accountID : String) : String :=
  String.intercalate "," (frontierURLs.map (fun url => url ++ ":")) ++ accountID

/-- `createOrderbookCacheKey` (line 91). -/
def createOrderbookCacheKey (frontierURLs : List String)
    (sellingAsset buyingAsset : String) : String :=
  String.intercalate "," (frontierURLs.map (fun url => url ++ ":"))
    ++ sellingAsset ++ ":" ++ buyingAsset

/-- `subscribeToAccount = cachify(accountSubscriptionCache, ..., createAccountCacheKey)`. -/
def subscribeToAccount (st : SubscriptionCaches H) (frontierURLs : List String)
    (accountID : String) (fresh : H) : H × SubscriptionCaches H :=
  let r := cachify st.accountSubscriptionCache
    (createAccountCacheKeyNet frontierURLs accountID) fresh
  (r.1, { st with accountSubscriptionCache := r.2 })

/-- `subscribeToAccountEffects` (effects cache, account cache key). -/
def subscribeToAccountEffects (st : SubscriptionCaches H) (frontierURLs : List String)
    (accountID : String) (fresh : H) : H × SubscriptionCaches H :=
  let r := cachify st.effectsSubscriptionCache
    (createAccountCacheKeyNet frontierURLs accountID) fresh
  (r.1, { st with effectsSubscriptionCache := r.2 })

/-- `subscribeToOpenOrders` (orders cache, account cache key). -/
def subscribeToOpenOrders (st : SubscriptionCaches H) (frontierURLs : List String)
    (accountID : String) (fresh : H) : H × SubscriptionCaches H :=
  let r := cachify st.ordersSubscriptionCache
    (createAccountCacheKeyNet frontierURLs accountID) fresh
  (r.1, { st with ordersSubscriptionCache := r.2 })

/-- `subscribeToOrderbook` (orderbook cache, orderbook cache key). -/
def subscribeToOrderbook (st : SubscriptionCaches H) (frontierURLs : List String)
    (sellingAsset buyingAsset : String) (fresh : H) : H × SubscriptionCaches H :=
  let r := cachify st.orderbookSubscriptionCache
    (createOrderbookCacheKey frontierURLs sellingAsset buyingAsset) fresh
  (r.1, { st with orderbookSubscriptionCache := r.2 })

/-- `subscribeToAccountTransactions` (transactions cache, account cache key). -/
def subscribeToAccountTransactions (st : SubscriptionCaches H) (frontierURLs : List String)
    (accountID : String) (fresh : H) : H × SubscriptionCaches H :=
  let r := cachify st.transactionsSubscriptionCache
    (createAccountCacheKeyNet frontierURLs accountID) fresh
  (r.1, { st with transactionsSubscriptionCache := r.2 })

/-- `resetAllSubscriptions` (lines 178–187): clear all five caches.  (The
    source additionally clears the poll-coordinator registry of
    `lib/subscription`, which is not part of these caches.) -/
def resetAllSubscriptions (_st : SubscriptionCaches H) : SubscriptionCaches H :=
  { accountSubscriptionCache := [],
    effectsSubscriptionCache := [],
    orderbookSubscriptionCache := [],
    ordersSubscriptionCache := [],
    transactionsSubscriptionCache := [] }

/-! ### Endpoint selector (`checkFrontierOrFailover`) -/

/-- Outcome of racing the primary health-check fetch against the 2.5 s
    timeout rejection: either a response arrived in time (with its
    status), or the race ended in the timeout / a network error. -/
inductive HealthCheckOutcome
  | response (status : Nat)
  | timedOutOrNetworkError
deriving DecidableEq, Repr

/-- The acceptance test of `checkFrontierOrFailover` (lines 160 and 172):
    status below 300, or exactly 404. -/
def isAcceptableStatus (status : Nat) : Bool :=
  status < 300 || status == 404

/-- `checkFrontierOrFailover` (lines 146–176), the wall-clock race and the
    two fetches abstracted into their observable results.  When the
    primary yields an acceptable response within 2.5 s its URL is
    returned; otherwise the secondary is probed, and the primary URL is
    returned anyway when the secondary's status is unacceptable. -/
def checkFrontierOrFailover (primaryFrontierURL secondaryFrontierURL : String)
    (primary : HealthCheckOutcome) (secondaryStatus : Nat) : String :=
  let serverToUse :=
    if isAcceptableStatus secondaryStatus then secondaryFrontierURL
    else primaryFrontierURL
  match primary with
  | .response status =>
    if isAcceptableStatus status then primaryFrontierURL else serverToUse
  | .timedOutOrNetworkError => serverToUse

/-! ### Waiting for account creation (`waitForAccountDataUncached`) -/

/-- Result of the account-creation wait loop. -/
inductive WaitResult
  | success (accountData : AccountResponse) (initialFetchFailed : Bool)
  | cancelled
  | requestFailed (status : Nat)
  | outOfFuel
deriving DecidableEq, Repr

/-- `interval = Math.min(interval * 1.05, 5000)`. -/
def nextInterval (interval : ℚ) : ℚ := min (interval * (21 / 20)) 5000

/-- The retry loop of `waitForAccountDataUncached` (lines 221–242), the
    network abstracted into the per-iteration response sequence
    `resp : Nat → Nat × AccountResponse` (status and parsed body) and the
    cancellation poll `shouldCancel : Nat → Bool`, with explicit fuel (the
    source loop is unbounded).  The returned list collects the backoff
    delays performed before each retry. -/
def waitLoop (shouldCancel : Nat → Bool) (resp : Nat → Nat × AccountResponse) :
    Nat → Nat → ℚ → Bool → WaitResult × List ℚ
  | 0, _, _, _ => (.outOfFuel, [])
  | fuel + 1, i, interval, initialFetchFailed =>
    if shouldCancel i then (.cancelled, [])
    else if (resp i).1 = 200 then (.success (resp i).2 initialFetchFailed, [])
    else if (resp i).1 = 404 then
      let rest := waitLoop shouldCancel resp fuel (i + 1) (nextInterval interval) true
      (rest.1, interval :: rest.2)
    else (.requestFailed (resp i).1, [])

/-- `waitForAccountDataUncached` starts its loop at `interval = 2500`
    with no failed fetch recorded. -/
def waitForAccountData (shouldCancel : Nat → Bool)
    (resp : Nat → Nat × AccountResponse) (fuel : Nat) : WaitResult × List ℚ :=
  waitLoop shouldCancel resp fuel 0 2500 false

/-! ### Fetch gate (`getFetchQueue` and the queue discipline) -/

/-- The `p-queue` constructor options used by `getFetchQueue`
    (digitalbits-network.ts lines 108–121). -/
structure QueueConfig where
  concurrency : Nat
  interval : Nat
  intervalCap : Nat
  timeout : Nat
  throwOnTimeout : Bool
deriving DecidableEq, Repr

/-- The configuration passed to `new PromiseQueue(...)` (lines 110–116). -/
def defaultFetchQueueConfig : QueueConfig :=
  { concurrency := 4, interval := 1000, intervalCap := 4,
    timeout := 10000, throwOnTimeout := true }

/-- A queue handle: a creation index standing for JS object identity,
    plus the configuration it was created with. -/
structure FetchQueue where
  id : Nat
  config : QueueConfig
deriving DecidableEq, Repr

/-- The module-level `fetchQueuesByFrontier` map (line 81) plus a counter
    supplying fresh handle identities. -/
structure FetchQueueRegistry where
  queues : List (String × FetchQueue)
  nextId : Nat
deriving DecidableEq, Repr

/-- The registry at module load time. -/
def emptyFetchQueueRegistry : FetchQueueRegistry := { queues := [], nextId := 0 }

/-- `getFetchQueue(frontierURL)` (lines 108–121): lazily create the
    per-URL queue with the fixed configuration and memoize it. -/
def getFetchQueue (frontierURL : String) (st : FetchQueueRegistry) :
    FetchQueue × FetchQueueRegistry :=
  match assocGet frontierURL st.queues with
  | some q => (q, st)
  | none =>
    let q : FetchQueue := { id := st.nextId, config := defaultFetchQueueConfig }
    (q, { queues := assocSet frontierURL q st.queues, nextId := st.nextId + 1 })

/-- How a gated request ends: normally, or failed with a timeout error. -/
inductive TaskOutcome
  | completed
  | timedOutError
deriving DecidableEq, Repr

/-- Modelled from the spec: the request discipline itself lives in the
    `p-queue` dependency, not in this repository, so the scheduler state
    is modelled from the spec's Fetch Gate description (bounded
    concurrency, a per-interval start cap, a per-request timeout that
    fails the pending call).  `running` pairs each task id with its start
    time; `startedInWindow` counts starts since `windowStart`. -/
structure GateState where
  now : Nat
  waiting : List Nat
  running : List (Nat × Nat)
  finished : List (Nat × TaskOutcome)
  windowStart : Nat
  startedInWindow : Nat
deriving DecidableEq, Repr

/-- Modelled from the spec: one scheduling event of a fetch queue with
    configuration `cfg`.  A task may start only below the concurrency
    bound and below the interval cap; a task past its timeout deadline
    can only leave the running set by failing with a timeout error. -/
inductive GateStep (cfg : QueueConfig) : GateState → GateState → Prop
  | enq (s : GateState) (id : Nat) :
      GateStep cfg s { s with waiting := s.waiting ++ [id] }
  | start (s : GateState) (id : Nat) (rest : List Nat) :
      s.waiting = id :: rest →
      s.running.length < cfg.concurrency →
      s.startedInWindow < cfg.intervalCap →
      GateStep cfg s { s with
        waiting := rest,
        running := s.running ++ [(id, s.now)],
        startedInWindow := s.startedInWindow + 1 }
  | complete (s : GateState) (id started : Nat) :
      (id, started) ∈ s.running →
      s.now < started + cfg.timeout →
      GateStep cfg s { s with
        running := s.running.erase (id, started),
        finished := s.finished ++ [(id, .completed)] }
  | timeoutFire (s : GateState) (id started : Nat) :
      (id, started) ∈ s.running →
      started + cfg.timeout ≤ s.now →
      cfg.throwOnTimeout = true →
      GateStep cfg s { s with
        running := s.running.erase (id, started),
        finished := s.finished ++ [(id, .timedOutError)] }
  | tick (s : GateState) :
      GateStep cfg s
        (if s.windowStart + cfg.interval ≤ s.now + 1 then
          { s with now := s.now + 1, windowStart := s.now + 1, startedInWindow := 0 }
        else { s with now := s.now + 1 })

/-- The gate state at queue creation. -/
def initialGateState : GateState :=
  { now := 0, waiting := [], running := [], finished := [],
    windowStart := 0, startedInWindow := 0 }

/-- States reachable from queue creation by scheduling events. -/
inductive GateReachable (cfg : QueueConfig) : GateState → Prop
  | init : GateReachable cfg initialGateState
  | step {s s' : GateState} : GateReachable cfg s → GateStep cfg s s' →
      GateReachable cfg s'

/-! ### Orderbook shortcuts -/

/-- `ServerApi.OrderbookRecord`, restricted to the fields the code builds
    (`_links.self.href`, `asks`, `bids`, `base`, `counter`); ask and bid
    entries are opaque. -/
structure OrderbookRecord where
  selfHref : String
  asks : List String
  bids : List String
  base : Asset
  counter : Asset
deriving DecidableEq, Repr

/-- `createEmptyOrderbookRecord` (digitalbits-network.ts lines 618–630). -/
def createEmptyOrderbookRecord (base counter : Asset) : OrderbookRecord :=
  { selfHref := "", asks := [], bids := [], base := base, counter := counter }

/-- Whether a call produces its value immediately or issues an upstream
    request. -/
inductive FetchDecision (α : Type)
  | immediate (value : α)
  | upstreamRequest
deriving DecidableEq, Repr

/-- The guard of `fetchOrderbookRecord` (lines 824–835): the raw asset id
    strings are compared; on equality the empty record is returned
    without queueing any fetch. -/
def fetchOrderbookRecordDecision (sellingAsset buyingAsset : String) :
    FetchDecision OrderbookRecord :=
  if buyingAsset == sellingAsset then
    .immediate (createEmptyOrderbookRecord (parseAssetID buyingAsset)
      (parseAssetID buyingAsset))
  else .upstreamRequest

/-- The guard of `subscribeToOrderbookUncached` (lines 632–644): the
    parsed assets are compared with `equals`; on equality a one-element
    observable of the empty record is returned without opening any SSE or
    polling machinery. -/
def subscribeToOrderbookDecision (sellingAsset buyingAsset : String) :
    FetchDecision (List OrderbookRecord) :=
  let buying := parseAssetID buyingAsset
  let selling := parseAssetID sellingAsset
  if selling.equals buying then
    .immediate [createEmptyOrderbookRecord buying buying]
  else .upstreamRequest

/-! ### Concrete inputs used by witnesses and failing inputs -/

/-- A dummy parsed account body for the C7 witness response sequence. -/
def cSevenAccount : AccountResponse :=
  { account_id := "GNEW", sequence := "1", balances := [], signers := [],
    thresholds := ⟨0, 0, 0⟩ }

/-- A cancellation poll that fires from iteration 3 on. -/
def cSevenCancelPoll (i : Nat) : Bool := decide (3 ≤ i)

/-- A response sequence: 404 first, then 500, then 200. -/
def cSevenResponses (i : Nat) : Nat × AccountResponse :=
  if i = 0 then (404, cSevenAccount)
  else if i = 1 then (500, cSevenAccount)
  else (200, cSevenAccount)

/-- A gate state holding one request that started at time 0 and is now
    past the 10 s deadline. -/
def cNineOverdue : GateState :=
  { now := 10000, waiting := [], running := [(0, 0)], finished := [],
    windowStart := 10000, startedInWindow := 0 }

/-- A concrete transaction for the C4 witness. -/
def cFourTx : Tx := { source := "GACC", hash := "aa11" }

/-- A `setOptions` operation removing signer `GSIGNER` (weight 0) and
    setting the master weight to 2. -/
def cFourOpRemove : SetOptionsOp :=
  { signer := some (.ed25519 "GSIGNER" (some 0)), masterWeight := some 2 }

/-- A `setOptions` operation adding signer `GSIGNER` with weight 3. -/
def cFourOpAdd : SetOptionsOp :=
  { signer := some (.ed25519 "GSIGNER" (some 3)) }

/-- A concrete transaction for the C5 failing input. -/
def cFiveTx : Tx := { source := "GACC", hash := "bb22" }

/-- A zero-limit `changeTrust` operation on liquidity-pool shares. -/
def cFiveOp : ChangeTrustOp := { line := .liquidityPoolShares "pool1", limit := "0" }

/-- A snapshot holding a native balance and an unrelated `FOO` trustline. -/
def cFiveSnapshot : AccountResponse :=
  { account_id := "GACC", sequence := "1",
    balances :=
      [ { asset_type := "native", balance := "100" },
        { asset_type := "credit_alphanum4", asset_code := some "FOO",
          asset_issuer := some "GISSUER", balance := "5", limit := some "1000" } ],
    signers := [], thresholds := ⟨0, 0, 0⟩ }

/-! ### Concrete inputs used by the C2 witness -/

/-- A concrete base snapshot. -/
def cTwoBase : AccountResponse :=
  { account_id := "GACC", sequence := "100", balances := [],
    signers := [⟨"ed25519_public_key", "GACC", 1⟩],
    thresholds := ⟨0, 0, 0⟩ }

/-- A concrete optimistic update bumping the sequence (hash `deadbeef`). -/
def cTwoUpdateA : OptimisticUpdate AccountResponse :=
  { apply := fun d => { d with sequence := "101" },
    effectsAccountID := "GACC",
    frontierURL := "https://frontier.livenet.digitalbits.io",
    title := "bump sequence",
    transactionHash := "deadbeef" }

/-- A concrete optimistic update clearing the signers (hash `cafe`). -/
def cTwoUpdateB : OptimisticUpdate AccountResponse :=
  { apply := fun d => { d with signers := [] },
    effectsAccountID := "GACC",
    frontierURL := "https://frontier.livenet.digitalbits.io",
    title := "clear signers",
    transactionHash := "cafe" }

/-! ## Theorems -/

theorem assocGet_assocSet_self (k : String) (v : α) (l : List (String × α)) :
    assocGet k (assocSet k v l) = some v := by
  induction l with
  | nil => simp [assocGet, assocSet]
  | cons hd tl ih =>
    obtain ⟨k', v'⟩ := hd
    by_cases h : k' = k
    · simp [assocGet, assocSet, h]
    · simp [assocGet, assocSet, h, ih]

theorem assocGet_assocSet_ne (k k' : String) (hne : k' ≠ k) (v : α) (l : List (String × α)) :
    assocGet k (assocSet k' v l) = assocGet k l := by
  induction l with
  | nil => simp [assocGet, assocSet, hne]
  | cons hd tl ih =>
    obtain ⟨k₀, v₀⟩ := hd
    by_cases h : k₀ = k'
    · subst h
      simp [assocGet, assocSet, hne]
    · by_cases h₂ : k₀ = k <;> simp [assocGet, assocSet, h, h₂, ih, hne.symm]

theorem removeStaleUpdates_eq_map_filter (frontierURL : String)
    (hashes : List String) (st : Ledger T) :
    removeStaleUpdates frontierURL hashes st
      = st.map (fun kv => (kv.1, kv.2.filter fun u => !isStale frontierURL hashes u)) := by
  unfold removeStaleUpdates
  apply List.map_congr_left
  intro kv _
  by_cases h : (kv.2.filter fun u => !isStale frontierURL hashes u).length ≠ kv.2.length
  · rw [if_pos h]
  · rw [if_neg h]
    push_neg at h
    have hsub : (kv.2.filter fun u => !isStale frontierURL hashes u).Sublist kv.2 :=
      List.filter_sublist _
    have heq : (kv.2.filter fun u => !isStale frontierURL hashes u) = kv.2 :=
      hsub.eq_of_length h
    rw [heq]

theorem isStale_iff (frontierURL : String) (hashes : List String)
    (u : OptimisticUpdate T) :
    (!isStale frontierURL hashes u) = true
      ↔ ¬(u.frontierURL = frontierURL ∧ u.transactionHash ∈ hashes) := by
  simp [isStale, List.contains, List.elem_iff, Decidable.not_and_iff_or_not, imp_iff_not_or]

theorem notStale_eq_decide (frontierURL : String) (hashes : List String)
    (x : OptimisticUpdate T) :
    (!isStale frontierURL hashes x)
      = decide (¬(x.frontierURL = frontierURL ∧ x.transactionHash ∈ hashes)) := by
  by_cases h : x.frontierURL = frontierURL ∧ x.transactionHash ∈ hashes
  · have hs : isStale frontierURL hashes x = true := by
      simp [isStale, List.contains, List.elem_iff, h.1, h.2]
    simp [hs, h]
  · have hs : (!isStale frontierURL hashes x) = true := (isStale_iff frontierURL hashes x).2 h
    simp_all

theorem assocGet_map_snd (k : String) (f : α → β) (l : List (String × α)) :
    assocGet k (l.map fun kv => (kv.1, f kv.2)) = (assocGet k l).map f := by
  induction l with
  | nil => simp [assocGet]
  | cons hd tl ih =>
    by_cases h : hd.1 = k <;> simp [assocGet, h, ih]

theorem getUpdates_removeStaleUpdates (u a frontierURL : String) (hashes : List String)
    (st : Ledger T) :
    getUpdates u a (removeStaleUpdates frontierURL hashes st)
      = (getUpdates u a st).filter fun x => !isStale frontierURL hashes x := by
  rw [removeStaleUpdates_eq_map_filter]
  unfold getUpdates
  rw [assocGet_map_snd]
  cases assocGet (createAccountCacheKeyByFilter u a) st <;> simp

theorem getUpdates_addUpdate_same (u a : String) (x : OptimisticUpdate T)
    (st : Ledger T) (hu : x.frontierURL = u) (ha : x.effectsAccountID = a) :
    getUpdates u a (addUpdate x st) = getUpdates u a st ++ [x] := by
  unfold getUpdates addUpdate
  have hkey : createAccountCacheKey x = createAccountCacheKeyByFilter u a := by
    simp [createAccountCacheKey, hu, ha]
  rw [hkey, assocGet_assocSet_self]
  cases assocGet (createAccountCacheKeyByFilter u a) st <;> simp

theorem getUpdates_addUpdates (us : List (OptimisticUpdate T)) (st : Ledger T)
    (u a : String) (h : ∀ x ∈ us, x.frontierURL = u ∧ x.effectsAccountID = a) :
    getUpdates u a (addUpdates us st) = getUpdates u a st ++ us := by
  induction us generalizing st with
  | nil => simp [addUpdates]
  | cons x us ih =>
    have hx := h x (List.mem_cons_self x us)
    have step : addUpdates (x :: us) st = addUpdates us (addUpdate x st) := rfl
    rw [step, ih (addUpdate x st) (fun y hy => h y (List.mem_cons_of_mem x hy)),
      getUpdates_addUpdate_same u a x st hx.1 hx.2, List.append_assoc]
    rfl

/-- C1: `removeStaleUpdates(u, H)` drops, from every bucket of the ledger,
    exactly the entries whose `frontierURL` equals `u` and whose
    `transactionHash` is a member of `H`; each bucket keeps the same key and
    the surviving entries keep their original relative order (each result
    bucket is a sublist of the original bucket), and the bucket sequence
    itself is preserved position by position. -/
theorem removeStaleUpdates_removes_exactly_matching {T : Type}
    (st : Ledger T) (u : String) (H : List String) :
    List.Forall₂
      (fun kv kv' =>
        kv'.1 = kv.1 ∧ kv'.2.Sublist kv.2 ∧
        ∀ x, x ∈ kv'.2 ↔ x ∈ kv.2 ∧ ¬(x.frontierURL = u ∧ x.transactionHash ∈ H))
      st (removeStaleUpdates u H st) := by
  rw [removeStaleUpdates_eq_map_filter, List.forall₂_map_right_iff, List.forall₂_same]
  intro kv _
  refine ⟨rfl, List.filter_sublist _, fun x => ?_⟩
  rw [List.mem_filter, isStale_iff]

/-- C2: updates added via `addUpdates` for one `(frontierURL, account)` key
    are returned by `getUpdates` in insertion order (appended after
    whatever the bucket already held); `optimisticallyUpdateAccountData` is
    the left fold of the `apply` functions over the base snapshot in that
    order; and after retiring entries by transaction hash the fold equals
    the fold of only the surviving updates, so retired updates no longer
    influence the result. -/
theorem addUpdates_getUpdates_fold_spec
    (us : List (OptimisticUpdate AccountResponse)) (st : Ledger AccountResponse)
    (u a : String) (base : AccountResponse) (H : List String)
    (hkeys : ∀ x ∈ us, x.frontierURL = u ∧ x.effectsAccountID = a)
    (hbase : base.account_id = a) :
    getUpdates u a (addUpdates us st) = getUpdates u a st ++ us ∧
    optimisticallyUpdateAccountData u base (addUpdates us st)
      = applyUpdatesFold (getUpdates u a st ++ us) base ∧
    optimisticallyUpdateAccountData u base (removeStaleUpdates u H (addUpdates us st))
      = applyUpdatesFold
          ((getUpdates u a (addUpdates us st)).filter
            fun x => decide (¬(x.frontierURL = u ∧ x.transactionHash ∈ H)))
          base := by
  have h1 := getUpdates_addUpdates us st u a hkeys
  refine ⟨h1, ?_, ?_⟩
  · unfold optimisticallyUpdateAccountData
    rw [hbase, h1]
  · unfold optimisticallyUpdateAccountData
    rw [hbase, getUpdates_removeStaleUpdates]
    congr 1
    apply List.filter_congr
    intro x _
    exact notStale_eq_decide u H x

/-- Witness for C2 at a concrete ledger: two updates for the same account
    key, the first of which is then retired by its transaction hash. -/
theorem addUpdates_getUpdates_fold_spec_witness :
    (∀ x ∈ [cTwoUpdateA, cTwoUpdateB], x.frontierURL = "https://frontier.livenet.digitalbits.io"
        ∧ x.effectsAccountID = "GACC") ∧
    cTwoBase.account_id = "GACC" ∧
    (getUpdates "https://frontier.livenet.digitalbits.io" "GACC"
        (addUpdates [cTwoUpdateA, cTwoUpdateB] []) = [] ++ [cTwoUpdateA, cTwoUpdateB] ∧
      optimisticallyUpdateAccountData "https://frontier.livenet.digitalbits.io" cTwoBase
          (addUpdates [cTwoUpdateA, cTwoUpdateB] [])
        = applyUpdatesFold ([] ++ [cTwoUpdateA, cTwoUpdateB]) cTwoBase ∧
      optimisticallyUpdateAccountData "https://frontier.livenet.digitalbits.io" cTwoBase
          (removeStaleUpdates "https://frontier.livenet.digitalbits.io" ["deadbeef"]
            (addUpdates [cTwoUpdateA, cTwoUpdateB] []))
        = applyUpdatesFold
            ((getUpdates "https://frontier.livenet.digitalbits.io" "GACC"
                (addUpdates [cTwoUpdateA, cTwoUpdateB] [])).filter
              fun x => decide (¬(x.frontierURL = "https://frontier.livenet.digitalbits.io"
                ∧ x.transactionHash ∈ ["deadbeef"])))
            cTwoBase) := by
  have hkeys : ∀ x ∈ [cTwoUpdateA, cTwoUpdateB],
      x.frontierURL = "https://frontier.livenet.digitalbits.io" ∧ x.effectsAccountID = "GACC" := by
    intro x hx
    simp only [List.mem_cons, List.not_mem_nil, or_false] at hx
    rcases hx with rfl | rfl <;> exact ⟨rfl, rfl⟩
  exact ⟨hkeys, rfl,
    addUpdates_getUpdates_fold_spec [cTwoUpdateA, cTwoUpdateB] [] _ "GACC" cTwoBase
      ["deadbeef"] hkeys rfl⟩

theorem filter_self_idem (p : α → Bool) (l : List α) :
    (l.filter p).filter p = l.filter p := by
  induction l with
  | nil => rfl
  | cons x xs ih =>
    by_cases h : p x <;> simp [List.filter_cons, h, ih]

theorem addSigner_apply_idem (u : String) (op : SetOptionsOp) (k : String)
    (w : Int) (tx : Tx) (s : AccountResponse) :
    (addSigner u op k w tx).apply ((addSigner u op k w tx).apply s)
      = (addSigner u op k w tx).apply s := by
  simp [addSigner, List.filter_append, filter_self_idem]

theorem removeSigner_apply_idem (u : String) (op : SetOptionsOp) (k : String)
    (tx : Tx) (s : AccountResponse) :
    (removeSigner u op k tx).apply ((removeSigner u op k tx).apply s)
      = (removeSigner u op k tx).apply s := by
  simp [removeSigner, filter_self_idem]

theorem setMasterWeight_step_idem (aid : String) (mw : Int) (x : AccountSigner) :
    (fun signer : AccountSigner =>
        if signer.type == "ed25519_public_key" && signer.key == aid then
          { signer with weight := mw }
        else signer)
      ((fun signer : AccountSigner =>
        if signer.type == "ed25519_public_key" && signer.key == aid then
          { signer with weight := mw }
        else signer) x)
      = (fun signer : AccountSigner =>
        if signer.type == "ed25519_public_key" && signer.key == aid then
          { signer with weight := mw }
        else signer) x := by
  by_cases h : (x.type == "ed25519_public_key" && x.key == aid) = true
  · simp [h]
  · simp [h]

theorem setMasterWeight_apply_idem (u : String) (op : SetOptionsOp) (mw : Int)
    (tx : Tx) (s : AccountResponse) :
    (setMasterWeight u op mw tx).apply ((setMasterWeight u op mw tx).apply s)
      = (setMasterWeight u op mw tx).apply s := by
  simp only [setMasterWeight, List.map_map]
  congr 1
  apply List.map_congr_left
  intro x _
  exact setMasterWeight_step_idem (jsOr op.source tx.source) mw x

theorem applyThresholds_idem (op : SetOptionsOp) (t : AccountThresholds) :
    applyThresholds op (applyThresholds op t) = applyThresholds op t := by
  rcases hl : op.lowThreshold with _ | l <;> rcases hm : op.medThreshold with _ | m <;>
    rcases hh : op.highThreshold with _ | h₀ <;> simp [applyThresholds, hl, hm, hh]

theorem setThresholds_apply_idem (u : String) (op : SetOptionsOp) (tx : Tx)
    (s : AccountResponse) :
    (setThresholds u op tx).apply ((setThresholds u op tx).apply s)
      = (setThresholds u op tx).apply s := by
  simp [setThresholds, applyThresholds_idem]

theorem mem_thresholdUpdates (u : String) (sop : SetOptionsOp) (tx : Tx)
    (upd : OptimisticUpdate AccountResponse) (h : upd ∈ thresholdUpdates u sop tx) :
    upd = setThresholds u sop tx := by
  unfold thresholdUpdates at h
  split at h <;> simp_all

theorem mem_signerUpdates (u : String) (sop : SetOptionsOp) (tx : Tx)
    (upd : OptimisticUpdate AccountResponse) (h : upd ∈ signerUpdates u sop tx) :
    (∃ k w, upd = addSigner u sop k w tx) ∨ (∃ k, upd = removeSigner u sop k tx) ∨
    upd = setThresholds u sop tx := by
  unfold signerUpdates at h
  split at h
  case h_1 x key w heq =>
    by_cases hw : 0 < w
    · rw [if_pos hw] at h
      exact Or.inl ⟨key, w, by simpa using h⟩
    · rw [if_neg hw] at h
      by_cases hw0 : w = 0
      · rw [if_pos hw0] at h
        exact Or.inr (Or.inl ⟨key, by simpa using h⟩)
      · rw [if_neg hw0] at h
        exact Or.inr (Or.inr (mem_thresholdUpdates u sop tx upd h))
  case h_2 x hx =>
    exact Or.inr (Or.inr (mem_thresholdUpdates u sop tx upd h))

theorem mem_setAccountOptions (u : String) (sop : SetOptionsOp) (tx : Tx)
    (upd : OptimisticUpdate AccountResponse) (h : upd ∈ setAccountOptions u sop tx) :
    (∃ k w, upd = addSigner u sop k w tx) ∨ (∃ k, upd = removeSigner u sop k tx) ∨
    (∃ mw, upd = setMasterWeight u sop mw tx) ∨ upd = setThresholds u sop tx := by
  unfold setAccountOptions at h
  split at h
  case h_1 x mw heq =>
    rw [List.mem_append] at h
    rcases h with h | h
    · rcases mem_signerUpdates u sop tx upd h with h' | h' | h'
      · exact Or.inl h'
      · exact Or.inr (Or.inl h')
      · exact Or.inr (Or.inr (Or.inr h'))
    · exact Or.inr (Or.inr (Or.inl ⟨mw, by simpa using h⟩))
  case h_2 x heq =>
    rcases mem_signerUpdates u sop tx upd h with h' | h' | h'
    · exact Or.inl h'
    · exact Or.inr (Or.inl h')
    · exact Or.inr (Or.inr (Or.inr h'))

theorem trustlineAlreadyPresent_newBalance (line : TrustLineTarget) (limit : String) :
    trustlineAlreadyPresent line (newTrustlineBalance line limit) = true := by
  cases line with
  | classic a =>
    simp [trustlineAlreadyPresent, newTrustlineBalance,
      TrustLineTarget.isPool, TrustLineTarget.asset, balancelineToAsset, Asset.equals]
  | liquidityPoolShares pid =>
    simp [trustlineAlreadyPresent, newTrustlineBalance,
      TrustLineTarget.isPool, TrustLineTarget.poolId]

theorem addTrustline_apply_eq (u : String) (op : ChangeTrustOp) (tx : Tx)
    (t : AccountResponse) :
    (addTrustline u op tx).apply t
      = { t with balances :=
            if t.balances.any (trustlineAlreadyPresent op.line) then t.balances
            else t.balances ++ [newTrustlineBalance op.line op.limit] } := rfl

theorem addTrustline_apply_idem (u : String) (op : ChangeTrustOp) (tx : Tx)
    (s : AccountResponse) :
    (addTrustline u op tx).apply ((addTrustline u op tx).apply s)
      = (addTrustline u op tx).apply s := by
  by_cases h : s.balances.any (trustlineAlreadyPresent op.line) = true
  · have h1 : (addTrustline u op tx).apply s = s := by
      rw [addTrustline_apply_eq, if_pos h]
    rw [h1]
    exact h1
  · have h1 : (addTrustline u op tx).apply s
        = { s with balances := s.balances ++ [newTrustlineBalance op.line op.limit] } := by
      rw [addTrustline_apply_eq, if_neg h]
    have h2 : (s.balances ++ [newTrustlineBalance op.line op.limit]).any
        (trustlineAlreadyPresent op.line) = true := by
      rw [List.any_append]
      simp [trustlineAlreadyPresent_newBalance]
    rw [h1, addTrustline_apply_eq]
    simp only [h2, if_pos]

theorem removeTrustline_apply_idem (u : String) (op : ChangeTrustOp) (tx : Tx)
    (s : AccountResponse) :
    (removeTrustline u op tx).apply ((removeTrustline u op tx).apply s)
      = (removeTrustline u op tx).apply s := by
  simp [removeTrustline, filter_self_idem]

/-- C3: every `apply` function produced by the `changeTrust` translator and
    by the `setOptions` translator (`addSigner`, `removeSigner`,
    `setMasterWeight`, `setThresholds`) is idempotent: applying it twice to
    any account snapshot yields the same snapshot as applying it once, so
    re-applying an already-applied update never double counts. -/
theorem optimistic_update_apply_idempotent (frontierURL : String)
    (cop : ChangeTrustOp) (sop : SetOptionsOp) (tx : Tx) (s : AccountResponse) :
    (∀ upd ∈ changeTrust frontierURL cop tx, upd.apply (upd.apply s) = upd.apply s) ∧
    (∀ upd ∈ setAccountOptions frontierURL sop tx, upd.apply (upd.apply s) = upd.apply s) := by
  constructor
  · intro upd hupd
    unfold changeTrust at hupd
    split at hupd <;> simp only [List.mem_singleton] at hupd <;> subst hupd
    · exact removeTrustline_apply_idem frontierURL cop tx s
    · exact addTrustline_apply_idem frontierURL cop tx s
  · intro upd hupd
    rcases mem_setAccountOptions frontierURL sop tx upd hupd with
      ⟨k, w, rfl⟩ | ⟨k, rfl⟩ | ⟨mw, rfl⟩ | rfl
    · exact addSigner_apply_idem frontierURL sop k w tx s
    · exact removeSigner_apply_idem frontierURL sop k tx s
    · exact setMasterWeight_apply_idem frontierURL sop mw tx s
    · exact setThresholds_apply_idem frontierURL sop tx s

theorem signerUpdates_eq_of_signer (u : String) (op : SetOptionsOp) (tx : Tx)
    (k : String) (w : Int) (hsg : op.signer = some (.ed25519 k (some w))) :
    signerUpdates u op tx
      = if 0 < w then [addSigner u op k w tx]
        else if w = 0 then [removeSigner u op k tx]
        else thresholdUpdates u op tx := by
  unfold signerUpdates
  rw [hsg]

theorem mem_setAccountOptions_of_mem_signerUpdates (u : String) (op : SetOptionsOp)
    (tx : Tx) (upd : OptimisticUpdate AccountResponse)
    (h : upd ∈ signerUpdates u op tx) : upd ∈ setAccountOptions u op tx := by
  unfold setAccountOptions
  cases hmw : op.masterWeight <;> simp [h]

theorem setMasterWeight_mem_setAccountOptions (u : String) (op : SetOptionsOp)
    (tx : Tx) (mw : Int) (hmw : op.masterWeight = some mw) :
    setMasterWeight u op mw tx ∈ setAccountOptions u op tx := by
  unfold setAccountOptions
  rw [hmw]
  simp

theorem removeSigner_apply_signers (u : String) (op : SetOptionsOp) (k : String)
    (tx : Tx) (s : AccountResponse) :
    ((removeSigner u op k tx).apply s).signers.Sublist s.signers ∧
    ∀ x, x ∈ ((removeSigner u op k tx).apply s).signers
      ↔ x ∈ s.signers ∧ ¬(x.type = "ed25519_public_key" ∧ x.key = k) := by
  constructor
  · exact List.filter_sublist _
  · intro x
    simp only [removeSigner, List.mem_filter]
    constructor
    · rintro ⟨hmem, hp⟩
      refine ⟨hmem, ?_⟩
      simp only [Bool.not_eq_true'] at hp
      intro hc
      simp [hc.1, hc.2] at hp
    · rintro ⟨hmem, hp⟩
      refine ⟨hmem, ?_⟩
      simp only [Bool.not_eq_true']
      by_contra hb
      simp only [Bool.not_eq_false, Bool.and_eq_true, beq_iff_eq] at hb
      exact hp hb

theorem setMasterWeight_apply_pointwise (u : String) (op : SetOptionsOp) (mw : Int)
    (tx : Tx) (s : AccountResponse) :
    List.Forall₂ (fun old new =>
        (old.type = "ed25519_public_key" ∧ old.key = jsOr op.source tx.source →
          new = { old with weight := mw }) ∧
        (¬(old.type = "ed25519_public_key" ∧ old.key = jsOr op.source tx.source) →
          new = old))
      s.signers ((setMasterWeight u op mw tx).apply s).signers := by
  rw [show ((setMasterWeight u op mw tx).apply s).signers
      = s.signers.map (fun signer =>
          if signer.type == "ed25519_public_key" && signer.key == jsOr op.source tx.source
          then { signer with weight := mw } else signer) from rfl]
  rw [List.forall₂_map_right_iff, List.forall₂_same]
  intro x _
  by_cases h : (x.type == "ed25519_public_key" && x.key == jsOr op.source tx.source) = true
  · refine ⟨fun _ => by simp [h], fun hc => absurd ?_ hc⟩
    simpa [Bool.and_eq_true, beq_iff_eq] using h
  · refine ⟨fun hc => absurd ?_ h, fun _ => by simp [h]⟩
    simp only [Bool.and_eq_true, beq_iff_eq]
    exact hc

/-- C4: for a `setOptions` operation, an ed25519 signer argument with
    weight exactly 0 yields an update whose `apply` removes exactly that
    ed25519 signer entry (keeping all others in order); a signer with any
    positive weight yields an update whose `apply` replaces or adds that
    signer's entry with the given weight; and a present `masterWeight` of
    `mw` yields an update whose `apply` rewrites only the weight of the
    account's own ed25519 entry to `mw`, leaving every other signer entry
    unchanged. -/
theorem setAccountOptions_signer_translation (u : String) (op : SetOptionsOp)
    (tx : Tx) (k : String) (w mw : Int) :
    (op.signer = some (.ed25519 k (some 0)) →
      ∃ upd ∈ setAccountOptions u op tx, ∀ s : AccountResponse,
        ((upd.apply s).signers).Sublist s.signers ∧
        ∀ x, x ∈ (upd.apply s).signers
          ↔ x ∈ s.signers ∧ ¬(x.type = "ed25519_public_key" ∧ x.key = k)) ∧
    (op.signer = some (.ed25519 k (some w)) → 0 < w →
      ∃ upd ∈ setAccountOptions u op tx, ∀ s : AccountResponse,
        (upd.apply s).signers
          = s.signers.filter (fun x => x.key != k) ++ [⟨"ed25519_public_key", k, w⟩]) ∧
    (op.masterWeight = some mw →
      ∃ upd ∈ setAccountOptions u op tx, ∀ s : AccountResponse,
        List.Forall₂ (fun old new =>
            (old.type = "ed25519_public_key" ∧ old.key = jsOr op.source tx.source →
              new = { old with weight := mw }) ∧
            (¬(old.type = "ed25519_public_key" ∧ old.key = jsOr op.source tx.source) →
              new = old))
          s.signers (upd.apply s).signers) := by
  refine ⟨fun hsg => ?_, fun hsg hw => ?_, fun hmw => ?_⟩
  · refine ⟨removeSigner u op k tx, ?_, fun s => removeSigner_apply_signers u op k tx s⟩
    apply mem_setAccountOptions_of_mem_signerUpdates
    rw [signerUpdates_eq_of_signer u op tx k 0 hsg]
    simp
  · refine ⟨addSigner u op k w tx, ?_, fun s => rfl⟩
    apply mem_setAccountOptions_of_mem_signerUpdates
    rw [signerUpdates_eq_of_signer u op tx k w hsg, if_pos hw]
    simp
  · exact ⟨setMasterWeight u op mw tx,
      setMasterWeight_mem_setAccountOptions u op tx mw hmw,
      fun s => setMasterWeight_apply_pointwise u op mw tx s⟩

/-- Witness for C4 at concrete operations: one removing signer `GSIGNER`
    (weight 0) while setting master weight 2, one adding `GSIGNER` with
    weight 3. -/
theorem setAccountOptions_signer_translation_witness :
    (∃ upd ∈ setAccountOptions "https://frontier.livenet.digitalbits.io" cFourOpRemove cFourTx,
      ∀ s : AccountResponse,
        ((upd.apply s).signers).Sublist s.signers ∧
        ∀ x, x ∈ (upd.apply s).signers
          ↔ x ∈ s.signers ∧ ¬(x.type = "ed25519_public_key" ∧ x.key = "GSIGNER")) ∧
    (∃ upd ∈ setAccountOptions "https://frontier.livenet.digitalbits.io" cFourOpAdd cFourTx,
      ∀ s : AccountResponse,
        (upd.apply s).signers
          = s.signers.filter (fun x => x.key != "GSIGNER")
              ++ [⟨"ed25519_public_key", "GSIGNER", 3⟩]) ∧
    (∃ upd ∈ setAccountOptions "https://frontier.livenet.digitalbits.io" cFourOpRemove cFourTx,
      ∀ s : AccountResponse,
        List.Forall₂ (fun old new =>
            (old.type = "ed25519_public_key"
                ∧ old.key = jsOr cFourOpRemove.source cFourTx.source →
              new = { old with weight := 2 }) ∧
            (¬(old.type = "ed25519_public_key"
                ∧ old.key = jsOr cFourOpRemove.source cFourTx.source) →
              new = old))
          s.signers (upd.apply s).signers) :=
  ⟨(setAccountOptions_signer_translation "https://frontier.livenet.digitalbits.io"
      cFourOpRemove cFourTx "GSIGNER" 1 2).1 rfl,
    (setAccountOptions_signer_translation "https://frontier.livenet.digitalbits.io"
      cFourOpAdd cFourTx "GSIGNER" 3 0).2.1 rfl (by decide),
    (setAccountOptions_signer_translation "https://frontier.livenet.digitalbits.io"
      cFourOpRemove cFourTx "GSIGNER" 1 2).2.2 rfl⟩

/-- C5 (failing input): a zero-limit `changeTrust` for liquidity-pool
    shares is translated to a single `removeTrustline` update, but its
    `apply` also removes the native XDB balance and an unrelated `FOO`
    trustline — every entry whose pool-vs-classic category differs from
    the operation's line — leaving the balance list empty instead of only
    dropping the operation's own trustline. -/
theorem changeTrust_zero_limit_removes_unrelated_entries :
    changeTrust "https://frontier.livenet.digitalbits.io" cFiveOp cFiveTx
      = [removeTrustline "https://frontier.livenet.digitalbits.io" cFiveOp cFiveTx] ∧
    ((removeTrustline "https://frontier.livenet.digitalbits.io" cFiveOp cFiveTx).apply
        cFiveSnapshot).balances = [] ∧
    cFiveSnapshot.balances.length = 2 := by
  refine ⟨?_, ?_, rfl⟩
  · have hz : bigEqZero cFiveOp.limit = true := by decide
    simp [changeTrust, hz]
  · rfl

theorem cachify_second_call (cache : List (String × H)) (k : String) (f₁ f₂ : H) :
    cachify (cachify cache k f₁).2 k f₂ = ((cachify cache k f₁).1, (cachify cache k f₁).2) := by
  unfold cachify
  cases h : assocGet k cache
  · simp [h, assocGet_assocSet_self]
  · simp [h]

/-- C6: each memoized subscription function returns the identical stream
    handle on a second call with equal keys (leaving the caches
    untouched, so at most one live upstream handle exists per key), and
    after `resetAllSubscriptions` the next call with the same key returns
    the freshly constructed handle instead of a cached one. -/
theorem subscription_cache_memoizes_and_resets {H : Type}
    (st : SubscriptionCaches H) (frontierURLs : List String)
    (accountID sellingAsset buyingAsset : String) (f₁ f₂ g : H) :
    ((subscribeToAccount (subscribeToAccount st frontierURLs accountID f₁).2
        frontierURLs accountID f₂).1
      = (subscribeToAccount st frontierURLs accountID f₁).1) ∧
    ((subscribeToAccount (resetAllSubscriptions st) frontierURLs accountID g).1 = g) ∧
    ((subscribeToAccountEffects (subscribeToAccountEffects st frontierURLs accountID f₁).2
        frontierURLs accountID f₂).1
      = (subscribeToAccountEffects st frontierURLs accountID f₁).1) ∧
    ((subscribeToAccountEffects (resetAllSubscriptions st) frontierURLs accountID g).1 = g) ∧
    ((subscribeToOpenOrders (subscribeToOpenOrders st frontierURLs accountID f₁).2
        frontierURLs accountID f₂).1
      = (subscribeToOpenOrders st frontierURLs accountID f₁).1) ∧
    ((subscribeToOpenOrders (resetAllSubscriptions st) frontierURLs accountID g).1 = g) ∧
    ((subscribeToOrderbook (subscribeToOrderbook st frontierURLs sellingAsset buyingAsset f₁).2
        frontierURLs sellingAsset buyingAsset f₂).1
      = (subscribeToOrderbook st frontierURLs sellingAsset buyingAsset f₁).1) ∧
    ((subscribeToOrderbook (resetAllSubscriptions st) frontierURLs sellingAsset buyingAsset g).1
      = g) ∧
    ((subscribeToAccountTransactions
        (subscribeToAccountTransactions st frontierURLs accountID f₁).2
        frontierURLs accountID f₂).1
      = (subscribeToAccountTransactions st frontierURLs accountID f₁).1) ∧
    ((subscribeToAccountTransactions (resetAllSubscriptions st) frontierURLs accountID g).1
      = g) := by
  refine ⟨?_, rfl, ?_, rfl, ?_, rfl, ?_, rfl, ?_, rfl⟩ <;>
    simp [subscribeToAccount, subscribeToAccountEffects, subscribeToOpenOrders,
      subscribeToOrderbook, subscribeToAccountTransactions, cachify_second_call]

/-- C8 (counterexample): the primary health check times out and the
    secondary answers 500 — `checkFrontierOrFailover` returns the primary
    URL, not the secondary one the claim requires. -/
theorem checkFrontierOrFailover_counterexample :
    checkFrontierOrFailover "https://frontier.livenet.digitalbits.io"
        "https://frontier.testnet.digitalbits.io" .timedOutOrNetworkError 500
      = "https://frontier.livenet.digitalbits.io" ∧
    "https://frontier.livenet.digitalbits.io" ≠ "https://frontier.testnet.digitalbits.io" := by
  exact ⟨rfl, by decide⟩

/-- C8 (amended): if the primary health check yields a response with
    status below 300 or equal to 404 within 2.5 s, the primary URL is
    returned; otherwise (timeout, network error, or unacceptable primary
    status) the secondary URL is returned when the secondary's response
    status is below 300 or 404, and the primary URL is returned when the
    secondary fails its status check too. -/
theorem checkFrontierOrFailover_amended (p s : String)
    (primary : HealthCheckOutcome) (secondaryStatus : Nat) :
    (∀ st, primary = .response st → isAcceptableStatus st = true →
      checkFrontierOrFailover p s primary secondaryStatus = p) ∧
    ((primary = .timedOutOrNetworkError ∨
        ∃ st, primary = .response st ∧ isAcceptableStatus st = false) →
      checkFrontierOrFailover p s primary secondaryStatus
        = if isAcceptableStatus secondaryStatus then s else p) := by
  constructor
  · rintro st rfl hst
    simp [checkFrontierOrFailover, hst]
  · rintro (rfl | ⟨st, rfl, hst⟩)
    · rfl
    · simp [checkFrontierOrFailover, hst]

/-- Witness for C8 (amended) at concrete inputs: an in-time 200 keeps the
    primary; a timeout with a 404-answering secondary fails over. -/
theorem checkFrontierOrFailover_amended_witness :
    checkFrontierOrFailover "https://frontier.livenet.digitalbits.io"
        "https://frontier.testnet.digitalbits.io" (.response 200) 500
      = "https://frontier.livenet.digitalbits.io" ∧
    checkFrontierOrFailover "https://frontier.livenet.digitalbits.io"
        "https://frontier.testnet.digitalbits.io" .timedOutOrNetworkError 404
      = (if isAcceptableStatus 404 then "https://frontier.testnet.digitalbits.io"
         else "https://frontier.livenet.digitalbits.io") :=
  ⟨(checkFrontierOrFailover_amended "https://frontier.livenet.digitalbits.io"
      "https://frontier.testnet.digitalbits.io" (.response 200) 500).1 200 rfl (by decide),
   (checkFrontierOrFailover_amended "https://frontier.livenet.digitalbits.io"
      "https://frontier.testnet.digitalbits.io" .timedOutOrNetworkError 404).2 (Or.inl rfl)⟩

/-- C7: one iteration of the account-creation wait loop behaves as
    specified — if the external cancellation poll (checked once, first,
    each iteration) fires, the loop aborts with the dedicated cancellation
    result; otherwise HTTP 200 ends the wait returning the parsed data;
    HTTP 404 is absorbed: the loop sleeps the current interval (recorded
    in the delay list) and retries with the grown backoff
    `min(interval * 1.05, 5000)`, nondecreasing and capped while the
    interval is in its `[2500, 5000]` range; any other status aborts with
    a request-failed error; and the cancellation result is distinct from
    every failure and success result. -/
theorem waitLoop_iteration_spec (sc : Nat → Bool)
    (resp : Nat → Nat × AccountResponse) (fuel i : Nat) (interval : ℚ) (ff : Bool) :
    (sc i = true → waitLoop sc resp (fuel + 1) i interval ff = (.cancelled, [])) ∧
    (sc i = false → (resp i).1 = 200 →
      waitLoop sc resp (fuel + 1) i interval ff = (.success (resp i).2 ff, [])) ∧
    (sc i = false → (resp i).1 = 404 →
      waitLoop sc resp (fuel + 1) i interval ff
        = ((waitLoop sc resp fuel (i + 1) (nextInterval interval) true).1,
            interval :: (waitLoop sc resp fuel (i + 1) (nextInterval interval) true).2)) ∧
    (sc i = false → (resp i).1 ≠ 200 → (resp i).1 ≠ 404 →
      waitLoop sc resp (fuel + 1) i interval ff = (.requestFailed (resp i).1, [])) ∧
    (2500 ≤ interval → interval ≤ 5000 →
      interval ≤ nextInterval interval ∧ nextInterval interval ≤ 5000) ∧
    (∀ (d : AccountResponse) (f' : Bool) (st : Nat),
      WaitResult.cancelled ≠ WaitResult.requestFailed st ∧
      WaitResult.cancelled ≠ WaitResult.success d f') := by
  refine ⟨fun hc => ?_, fun hc h200 => ?_, fun hc h404 => ?_,
    fun hc h200 h404 => ?_, fun hlo hhi => ⟨?_, ?_⟩, fun d f' st => ⟨?_, ?_⟩⟩
  · simp [waitLoop, hc]
  · simp [waitLoop, hc, h200]
  · have h200 : (resp i).1 ≠ 200 := by omega
    simp [waitLoop, hc, h200, h404]
  · simp [waitLoop, hc, h200, h404]
  · unfold nextInterval
    apply le_min
    · nlinarith
    · exact hhi
  · exact min_le_right _ _
  · intro h
    cases h
  · intro h
    cases h

/-- Witness for C7: the concrete response sequence answers 404 at
    iteration 0, 500 at iteration 1 and 200 at iteration 2, and the
    cancellation poll fires from iteration 3 on. -/
theorem waitLoop_iteration_spec_witness :
    (waitLoop cSevenCancelPoll cSevenResponses 1 3 2500 true = (.cancelled, [])) ∧
    (waitLoop cSevenCancelPoll cSevenResponses 1 2 2500 false
      = (.success cSevenAccount false, [])) ∧
    (waitLoop cSevenCancelPoll cSevenResponses 2 0 2500 false
      = ((waitLoop cSevenCancelPoll cSevenResponses 1 1 (nextInterval 2500) true).1,
          2500 :: (waitLoop cSevenCancelPoll cSevenResponses 1 1 (nextInterval 2500) true).2)) ∧
    (waitLoop cSevenCancelPoll cSevenResponses 1 1 2500 true = (.requestFailed 500, [])) ∧
    ((2500 : ℚ) ≤ nextInterval 2500 ∧ nextInterval 2500 ≤ 5000) := by
  refine ⟨(waitLoop_iteration_spec cSevenCancelPoll cSevenResponses 0 3 2500 true).1
      (by decide), ?_, ?_, ?_, ?_⟩
  · have h := (waitLoop_iteration_spec cSevenCancelPoll cSevenResponses 0 2 2500 false).2.1
      (by decide) (by decide)
    simpa [cSevenResponses] using h
  · exact (waitLoop_iteration_spec cSevenCancelPoll cSevenResponses 1 0 2500 false).2.2.1
      (by decide) (by decide)
  · have h := (waitLoop_iteration_spec cSevenCancelPoll cSevenResponses 0 1 2500 true).2.2.2.1
      (by decide) (by decide) (by decide)
    simpa [cSevenResponses] using h
  · exact (waitLoop_iteration_spec cSevenCancelPoll cSevenResponses 0 0 2500 false).2.2.2.2.1
      (by norm_num) (by norm_num)

theorem gate_invariant (cfg : QueueConfig) (s : GateState)
    (h : GateReachable cfg s) :
    s.running.length ≤ cfg.concurrency ∧ s.startedInWindow ≤ cfg.intervalCap := by
  induction h with
  | init => exact ⟨Nat.zero_le _, Nat.zero_le _⟩
  | step hr hstep ih =>
    cases hstep with
    | enq id => exact ih
    | start id rest hw hrun hcap =>
      refine ⟨?_, hcap⟩
      simpa using hrun
    | complete id started hmem hlt =>
      exact ⟨le_trans (List.erase_sublist _ _).length_le ih.1, ih.2⟩
    | timeoutFire id started hmem hge hthrow =>
      exact ⟨le_trans (List.erase_sublist _ _).length_le ih.1, ih.2⟩
    | tick =>
      split
      · exact ⟨ih.1, Nat.zero_le _⟩
      · exact ih

/-- C9: `getFetchQueue` is a single per-URL queue — a repeated call for
    the same URL returns the very same queue handle and leaves the
    registry unchanged, and a freshly created queue carries the
    configuration `concurrency = 4`, `interval = 1000 ms`,
    `intervalCap = 4`, `timeout = 10000 ms`, `throwOnTimeout`; in the
    modelled queue discipline no reachable state ever runs more than 4
    requests at once or starts more than 4 requests within one interval
    window, and a request past its 10 s deadline can only leave the
    running set by failing with a timeout error, which is always possible
    (it never hangs). -/
theorem fetch_gate_spec (frontierURL : String) (st : FetchQueueRegistry) :
    (getFetchQueue frontierURL (getFetchQueue frontierURL st).2
      = ((getFetchQueue frontierURL st).1, (getFetchQueue frontierURL st).2)) ∧
    ((getFetchQueue frontierURL emptyFetchQueueRegistry).1.config
      = { concurrency := 4, interval := 1000, intervalCap := 4,
          timeout := 10000, throwOnTimeout := true }) ∧
    (∀ s : GateState, GateReachable defaultFetchQueueConfig s →
      s.running.length ≤ 4 ∧ s.startedInWindow ≤ 4) ∧
    (∀ (s : GateState) (id started : Nat), (id, started) ∈ s.running →
      started + 10000 ≤ s.now →
      ∃ s', GateStep defaultFetchQueueConfig s s' ∧
        (id, TaskOutcome.timedOutError) ∈ s'.finished ∧
        s'.running.length < s.running.length) := by
  refine ⟨?_, rfl, ?_, ?_⟩
  · unfold getFetchQueue
    cases h : assocGet frontierURL st.queues
    · simp [h, assocGet_assocSet_self]
    · simp [h]
  · exact fun s hs => gate_invariant defaultFetchQueueConfig s hs
  · intro s id started hmem hdeadline
    refine ⟨_, GateStep.timeoutFire s id started hmem hdeadline rfl, ?_, ?_⟩
    · simp
    · simpa [List.length_erase_of_mem hmem] using
        Nat.sub_lt (List.length_pos_of_mem hmem) Nat.one_pos

/-- Witness for C9: the memoized queue at a concrete URL, the invariant
    at the initial state, and the timeout step at a state holding one
    request ten seconds old. -/
theorem fetch_gate_spec_witness :
    (getFetchQueue "https://frontier.livenet.digitalbits.io"
        (getFetchQueue "https://frontier.livenet.digitalbits.io" emptyFetchQueueRegistry).2
      = ((getFetchQueue "https://frontier.livenet.digitalbits.io" emptyFetchQueueRegistry).1,
         (getFetchQueue "https://frontier.livenet.digitalbits.io" emptyFetchQueueRegistry).2)) ∧
    (initialGateState.running.length ≤ 4 ∧ initialGateState.startedInWindow ≤ 4) ∧
    (∃ s', GateStep defaultFetchQueueConfig cNineOverdue s' ∧
      (0, TaskOutcome.timedOutError) ∈ s'.finished ∧
      s'.running.length < cNineOverdue.running.length) :=
  ⟨(fetch_gate_spec "https://frontier.livenet.digitalbits.io" emptyFetchQueueRegistry).1,
   (fetch_gate_spec "https://frontier.livenet.digitalbits.io" emptyFetchQueueRegistry).2.2.1
      initialGateState GateReachable.init,
   (fetch_gate_spec "https://frontier.livenet.digitalbits.io" emptyFetchQueueRegistry).2.2.2
      cNineOverdue 0 0 (by simp [cNineOverdue]) (by norm_num [cNineOverdue])⟩

/-- C10: when the selling asset identifier equals the buying asset
    identifier, `fetchOrderbookRecord` returns the empty orderbook record
    (no asks, no bids) immediately, and `subscribeToOrderbook` produces a
    one-element stream of that same empty record — in both cases without
    issuing any upstream request. -/
theorem orderbook_same_asset_immediate_empty (sellingAsset buyingAsset : String)
    (h : sellingAsset = buyingAsset) :
    fetchOrderbookRecordDecision sellingAsset buyingAsset
      = .immediate (createEmptyOrderbookRecord (parseAssetID buyingAsset)
          (parseAssetID buyingAsset)) ∧
    subscribeToOrderbookDecision sellingAsset buyingAsset
      = .immediate [createEmptyOrderbookRecord (parseAssetID buyingAsset)
          (parseAssetID buyingAsset)] ∧
    (createEmptyOrderbookRecord (parseAssetID buyingAsset)
        (parseAssetID buyingAsset)).asks = [] ∧
    (createEmptyOrderbookRecord (parseAssetID buyingAsset)
        (parseAssetID buyingAsset)).bids = [] := by
  subst h
  refine ⟨?_, ?_, rfl, rfl⟩
  · simp [fetchOrderbookRecordDecision]
  · simp [subscribeToOrderbookDecision, Asset.equals]

/-- Witness for C10 at the native asset id `"XDB"`. -/
theorem orderbook_same_asset_immediate_empty_witness :
    fetchOrderbookRecordDecision "XDB" "XDB"
      = .immediate (createEmptyOrderbookRecord (parseAssetID "XDB") (parseAssetID "XDB")) ∧
    subscribeToOrderbookDecision "XDB" "XDB"
      = .immediate [createEmptyOrderbookRecord (parseAssetID "XDB") (parseAssetID "XDB")] ∧
    (createEmptyOrderbookRecord (parseAssetID "XDB") (parseAssetID "XDB")).asks = [] ∧
    (createEmptyOrderbookRecord (parseAssetID "XDB") (parseAssetID "XDB")).bids = [] :=
  orderbook_same_asset_immediate_empty "XDB" "XDB" rfl

end Solar
